import Mathlib

/-!
Shallow embedding of the two operational scripts of the repository
`mongodb-privatelink-connectivity-test`:

* `src/atlas_cluster_scaler.py` — toggles a managed cluster between two
  instance-size labels and waits for the remote state to report `"IDLE"`.
* `src/atlas_endpoint_cycler.py` — tears down and recreates AWS private
  endpoints registered with the managed service, waiting for not-found after
  deletion and for `"AVAILABLE"` after recreation.

The remote APIs are modelled as oracles (environments) answering each call;
the scripts are modelled as fuelled, trace-producing functions.  Each remote
interaction is recorded as an event, so ordering, counting and error
propagation properties can be stated about the produced traces.

Conventions:
* Python exceptions are the `PyErr` error channel of `Except`.
* A polling `while True:` loop takes fuel; running out of fuel returns `none`
  ("still polling"), normal completion or a raised exception returns `some`.
* Python truthiness of an optional JSON object (`if not endpoint:`) is
  falsity of `none` and of the empty object.
-/

/-- Python exceptions that the scripts can raise or observe:
`requests.exceptions.HTTPError` with a status code, a network-level error
(also raised by `requests`/`boto3` but not an `HTTPError`), a `KeyError`
from a missing dictionary key, and an `IndexError` from list indexing. -/
inductive PyErr : Type
  | http (status : Nat)
  | network
  | keyError (key : String)
  | indexError
deriving DecidableEq, Repr

/-- A JSON object body, modelled as a flat association list of string fields
(the scripts only read string-valued fields). -/
abbrev Json : Type := List (String × String)

/-- Field lookup on a JSON object: `body["key"]`. -/
def jsonGet (j : Json) (k : String) : Option String :=
  match j with
  | [] => none
  | (k', v) :: rest => if k' = k then some v else jsonGet rest k

/-- Outcome of one HTTP request as seen by the script: a successful (2xx)
response with a JSON body, an HTTP error status (what
`response.raise_for_status()` raises `HTTPError` for), or a network failure
(raised by `requests` before any response exists). -/
inductive HttpResult : Type
  | success (body : Json)
  | httpError (status : Nat)
  | netError
deriving DecidableEq, Repr

section ClusterScaler

/-! ### `src/atlas_cluster_scaler.py` -/

/-- An `electableSpecs` / `readOnlySpecs` / `analyticsSpecs` entry of a region
configuration: the script only reads and writes `instanceSize`. -/
structure Specs : Type where
  instanceSize : String
deriving DecidableEq, Repr

/-- One entry of `regionConfigs`; each of the three spec keys may be absent. -/
structure RegionConfig : Type where
  electableSpecs : Option Specs
  readOnlySpecs : Option Specs
  analyticsSpecs : Option Specs
deriving DecidableEq, Repr

/-- One entry of `replicationSpecs`. -/
structure ReplicationSpec : Type where
  regionConfigs : List RegionConfig
deriving DecidableEq, Repr

/-- The cluster configuration returned by
`GET /api/atlas/v2/groups/{PROJECT_ID}/clusters/{CLUSTER_NAME}`, restricted
to the fields the script reads: `replicationSpecs` and `stateName`. -/
structure Config : Type where
  replicationSpecs : List ReplicationSpec
  stateName : String
deriving DecidableEq, Repr

/-- Inner loop of `get_instance_size`: first `regionConfigs` entry that has an
`electableSpecs` key wins. -/
def findElectableSize : List RegionConfig → Option String
  | [] => none
  | rc :: rest =>
    match rc.electableSpecs with
    | some s => some s.instanceSize
    | none => findElectableSize rest

/-- Outer loop of `get_instance_size` over `replicationSpecs`. -/
def findElectableSizeSpecs : List ReplicationSpec → Option String
  | [] => none
  | spec :: rest =>
    match findElectableSize spec.regionConfigs with
    | some s => some s
    | none => findElectableSizeSpecs rest

/-- Embedding of `get_instance_size(config)` (`src/atlas_cluster_scaler.py:84-90`):
returns the `instanceSize` of the first `regionConfigs` entry carrying an
`electableSpecs` key, scanning `replicationSpecs` in order; `None` if no
region configuration has one. -/
def get_instance_size (config : Config) : Option String :=
  findElectableSizeSpecs config.replicationSpecs

/-- The toggle of `main` (`src/atlas_cluster_scaler.py:120`):
`new_size = SCALE_TO if current_size == SCALE_FROM else SCALE_FROM`. -/
def toggle_size (scaleFrom scaleTo currentSize : String) : String :=
  if currentSize = scaleFrom then scaleTo else scaleFrom

/-- Payload construction of `update_cluster_size`: it rewrites every `instanceSize` under
`electableSpecs`, `readOnlySpecs` and `analyticsSpecs` of every
`regionConfigs` entry to the new size (lines 67-75). -/
def setRegionSize (newSize : String) (rc : RegionConfig) : RegionConfig where
  electableSpecs := rc.electableSpecs.map fun _ => ⟨newSize⟩
  readOnlySpecs := rc.readOnlySpecs.map fun _ => ⟨newSize⟩
  analyticsSpecs := rc.analyticsSpecs.map fun _ => ⟨newSize⟩

/-- The `replicationSpecs` payload `update_cluster_size` sends in its PATCH. -/
def scalePayload (newSize : String) (config : Config) : List ReplicationSpec :=
  config.replicationSpecs.map fun spec =>
    ⟨spec.regionConfigs.map (setRegionSize newSize)⟩

end ClusterScaler

section ClusterScalerRuns

/-! ### Trace semantics for the cluster scaler

The remote Atlas API is an oracle answering the `n`-th GET of the cluster
configuration and the `n`-th PATCH; each script-side call is recorded as an
event.  GET and PATCH calls are counted separately, each by its own call
counter threaded through the run. -/

/-- Remote-world oracle for the scaler: the reply to the `n`-th
`session.get` of the cluster URL and to the `n`-th `session.patch`. -/
structure ScalerEnv : Type where
  getReply : Nat → HttpResult
  patchReply : Nat → HttpResult
  /-- Decoding of a successful GET body into the cluster configuration. -/
  decode : Json → Config

/-- Events of a scaler run. -/
inductive SEv : Type
  | getCluster
  | patchCluster (payload : List ReplicationSpec)
  | sleep (seconds : Nat)
deriving DecidableEq, Repr

/-- Counters for the two kinds of remote calls made so far. -/
structure SCnt : Type where
  gets : Nat
  patches : Nat
deriving DecidableEq, Repr

/-- Embedding of `get_current_cluster_config` (`src/atlas_cluster_scaler.py:51-55`):
one GET; `raise_for_status` turns an HTTP error status into an exception;
otherwise the JSON body is decoded. -/
def get_current_cluster_config (env : ScalerEnv) (c : SCnt) :
    List SEv × Except PyErr Config × SCnt :=
  match env.getReply c.gets with
  | .success body => ([.getCluster], .ok (env.decode body), ⟨c.gets + 1, c.patches⟩)
  | .httpError s => ([.getCluster], .error (.http s), ⟨c.gets + 1, c.patches⟩)
  | .netError => ([.getCluster], .error .network, ⟨c.gets + 1, c.patches⟩)

/-- Embedding of `update_cluster_size(new_size)` (`src/atlas_cluster_scaler.py:58-81`):
fetches the current configuration, rewrites the sizes, and issues one PATCH;
`raise_for_status` on the PATCH response. -/
def update_cluster_size (env : ScalerEnv) (newSize : String) (c : SCnt) :
    List SEv × Except PyErr Unit × SCnt :=
  match get_current_cluster_config env c with
  | (tr, .error e, c') => (tr, .error e, c')
  | (tr, .ok config, c') =>
    let payload := scalePayload newSize config
    match env.patchReply c'.patches with
    | .success _ =>
      (tr ++ [.patchCluster payload], .ok (), ⟨c'.gets, c'.patches + 1⟩)
    | .httpError s =>
      (tr ++ [.patchCluster payload], .error (.http s), ⟨c'.gets, c'.patches + 1⟩)
    | .netError =>
      (tr ++ [.patchCluster payload], .error .network, ⟨c'.gets, c'.patches + 1⟩)

/-- Embedding of `wait_for_cluster_update` (`src/atlas_cluster_scaler.py:93-100`):
`while True:` fetch the configuration; break once `stateName == "IDLE"`;
otherwise sleep 60 seconds and poll again.  Fuel bounds the number of
inspected ticks; exhausted fuel means "still polling" (`none`). -/
def wait_for_cluster_update (env : ScalerEnv) :
    Nat → SCnt → List SEv × Option (Except PyErr Unit) × SCnt
  | 0, c => ([], none, c)
  | fuel + 1, c =>
    match get_current_cluster_config env c with
    | (tr, .error e, c') => (tr, some (.error e), c')
    | (tr, .ok config, c') =>
      if config.stateName = "IDLE" then
        (tr, some (.ok ()), c')
      else
        match wait_for_cluster_update env fuel c' with
        | (tr', r, c'') => (tr ++ .sleep 60 :: tr', r, c'')

/-- Body of the `try:` block of one iteration of the `while True:` loop of
`main` (`src/atlas_cluster_scaler.py:110-131`): fetch the configuration, read the
current size, on `None` sleep `SLEEP_INTERVAL` and continue, otherwise toggle,
update, wait for convergence, and sleep `SLEEP_INTERVAL`.  `some (.ok ())`
means the iteration ended normally (including the `continue` path),
`some (.error e)` means an exception escaped the body, `none` means the run is
still polling inside `wait_for_cluster_update` (fuel exhausted there). -/
def scaler_try_body (env : ScalerEnv) (scaleFrom scaleTo : String)
    (sleepInterval waitFuel : Nat) (c : SCnt) :
    List SEv × Option (Except PyErr Unit) × SCnt :=
  match get_current_cluster_config env c with
  | (tr, .error e, c') => (tr, some (.error e), c')
  | (tr, .ok config, c') =>
    match get_instance_size config with
    | none => (tr ++ [.sleep sleepInterval], some (.ok ()), c')
    | some currentSize =>
      let newSize := toggle_size scaleFrom scaleTo currentSize
      match update_cluster_size env newSize c' with
      | (tr2, .error e, c2) => (tr ++ tr2, some (.error e), c2)
      | (tr2, .ok _, c2) =>
        match wait_for_cluster_update env waitFuel c2 with
        | (tr3, none, c3) => (tr ++ tr2 ++ tr3, none, c3)
        | (tr3, some (.error e), c3) => (tr ++ tr2 ++ tr3, some (.error e), c3)
        | (tr3, some (.ok _), c3) =>
          (tr ++ tr2 ++ tr3 ++ [.sleep sleepInterval], some (.ok ()), c3)

/-- The `while True:` loop of `main` with its `try/except`
(`src/atlas_cluster_scaler.py:109-135`): run the body; on an exception, log
it, sleep `SLEEP_INTERVAL`, and start the next iteration; on normal
completion start the next iteration directly.  The loop itself never
terminates: the result is `none` both when the outer fuel runs out and when a
run is stuck polling inside `wait_for_cluster_update`. -/
def scaler_main_loop (env : ScalerEnv) (scaleFrom scaleTo : String)
    (sleepInterval waitFuel : Nat) :
    Nat → SCnt → List SEv × Option (Except PyErr Unit) × SCnt
  | 0, c => ([], none, c)
  | n + 1, c =>
    match scaler_try_body env scaleFrom scaleTo sleepInterval waitFuel c with
    | (tr, none, c') => (tr, none, c')
    | (tr, some (.ok _), c') =>
      match scaler_main_loop env scaleFrom scaleTo sleepInterval waitFuel n c' with
      | (tr', r, c'') => (tr ++ tr', r, c'')
    | (tr, some (.error _), c') =>
      match scaler_main_loop env scaleFrom scaleTo sleepInterval waitFuel n c' with
      | (tr', r, c'') => (tr ++ .sleep sleepInterval :: tr', r, c'')

/-- Is the event a PATCH of the cluster (the mutate operation)? -/
def isPatchEv : SEv → Bool
  | .patchCluster _ => true
  | _ => false

/-- Number of mutate (PATCH) calls recorded in a scaler trace. -/
def patchCount (tr : List SEv) : Nat :=
  (tr.filter isPatchEv).length

/-- Trace of the `wait_for_cluster_update` loop that observes `k` non-IDLE
ticks and then an IDLE one: each iteration fetches first and sleeps only when
it has to keep polling. -/
def scalerPollTrace : Nat → List SEv
  | 0 => [.getCluster]
  | k + 1 => .getCluster :: .sleep 60 :: scalerPollTrace k

end ClusterScalerRuns

section EndpointCycler

/-! ### `src/atlas_endpoint_cycler.py` -/

/-- Python truthiness of the value bound by `endpoint = get_endpoint(...)`:
`None` and the empty JSON object are falsy. -/
def pyTruthyJson (o : Option Json) : Bool :=
  match o with
  | none => false
  | some j => !j.isEmpty

/-- Embedding of `get_endpoint` (`src/atlas_endpoint_cycler.py:74-84`): GET the endpoint;
`raise_for_status` raises `HTTPError` for an error status, the handler turns
exactly status 404 into the `None` result and re-raises anything else; a
network-level failure is not an `HTTPError` and propagates. -/
def get_endpoint (r : HttpResult) : Except PyErr (Option Json) :=
  match r with
  | .success body => .ok (some body)
  | .httpError s => if s = 404 then .ok none else .error (.http s)
  | .netError => .error .network

/-- Embedding of `delete_endpoint` (`src/atlas_endpoint_cycler.py:87-91`): DELETE plus
`raise_for_status`. -/
def delete_endpoint (r : HttpResult) : Except PyErr Unit :=
  match r with
  | .success _ => .ok ()
  | .httpError s => .error (.http s)
  | .netError => .error .network

/-- Embedding of `create_private_endpoint` (`src/atlas_endpoint_cycler.py:94-102`): POST
plus `raise_for_status`, returning the response body. -/
def create_private_endpoint (r : HttpResult) : Except PyErr Json :=
  match r with
  | .success body => .ok body
  | .httpError s => .error (.http s)
  | .netError => .error .network

/-- Embedding of `get_vpc_endpoint_id` (`src/atlas_endpoint_cycler.py:105-115`) applied to
the reply of `describe_vpc_endpoints`: `endpoints[0]["VpcEndpointId"]` when
the filtered list is non-empty, `None` otherwise. -/
def get_vpc_endpoint_id (resp : Except PyErr (List Json)) :
    Except PyErr (Option String) :=
  match resp with
  | .error e => .error e
  | .ok [] => .ok none
  | .ok (ep :: _) =>
    match jsonGet ep "VpcEndpointId" with
    | some v => .ok (some v)
    | none => .error (.keyError "VpcEndpointId")

/-- Remote-world oracle for the endpoint cycler.  Replies to the AWS
`describe`/`delete`/`create` calls are keyed by the argument identifiers;
replies to the Atlas GET polls are keyed by the endpoint id and the tick of
the surrounding wait loop. -/
structure CyclerEnv : Type where
  /-- Reply to `describe_vpc_endpoints` filtered by this VPC id. -/
  describeReply : String → Except PyErr (List Json)
  /-- Reply to the Atlas DELETE of this endpoint id. -/
  deleteEndpointReply : String → HttpResult
  /-- Reply to the Atlas GET of this endpoint id at this tick of the
  deletion wait loop. -/
  deleteFetchReply : String → Nat → HttpResult
  /-- Reply to `delete_vpc_endpoints` for this endpoint id. -/
  awsDeleteReply : String → Except PyErr Unit
  /-- Reply to `create_vpc_endpoint` for this VPC, subnet and security
  group: the new VPC endpoint id. -/
  awsCreateReply : String → String → String → Except PyErr String
  /-- Reply to the Atlas POST registering this endpoint id. -/
  createEndpointReply : String → HttpResult
  /-- Reply to the Atlas GET of this endpoint id at this tick of the
  recreation wait loop. -/
  createFetchReply : String → Nat → HttpResult

/-- Events of a cycler run. -/
inductive CEv : Type
  | describeVpcEndpoints (vpcId : String)
  | deleteEndpointCall (vpceId : String)
  | getEndpointCall (vpceId : String)
  | deleteVpcEndpointCall (vpceId : String)
  | createVpcEndpointCall (vpcId subnetId sgId : String)
  | createEndpointCall (vpceId : String)
  | sleep (seconds : Nat)
deriving DecidableEq, Repr

/-- Sequencing of two traced steps: run the second only if the first ended
normally; propagate a raised exception or exhausted fuel. -/
def candThen {α β : Type} (r : List CEv × Option (Except PyErr α))
    (f : α → List CEv × Option (Except PyErr β)) :
    List CEv × Option (Except PyErr β) :=
  match r with
  | (tr, some (.ok a)) =>
    match f a with
    | (tr2, s) => (tr ++ tr2, s)
  | (tr, some (.error e)) => (tr, some (.error e))
  | (tr, none) => (tr, none)

/-- The deletion wait loop (`src/atlas_endpoint_cycler.py:154-158`):
`while True:` fetch the endpoint; `break` once it is falsy (deleted);
otherwise sleep 30 seconds and poll again. -/
def wait_endpoint_deleted (env : CyclerEnv) (vpceId : String) :
    Nat → Nat → List CEv × Option (Except PyErr Unit)
  | 0, _ => ([], none)
  | fuel + 1, tick =>
    match get_endpoint (env.deleteFetchReply vpceId tick) with
    | .error e => ([.getEndpointCall vpceId], some (.error e))
    | .ok ep =>
      if pyTruthyJson ep then
        match wait_endpoint_deleted env vpceId fuel (tick + 1) with
        | (tr, r) => (.getEndpointCall vpceId :: .sleep 30 :: tr, r)
      else
        ([.getEndpointCall vpceId], some (.ok ()))

/-- The recreation wait loop (`src/atlas_endpoint_cycler.py:168-172`):
`while True:` fetch the endpoint; `break` once it is truthy and its
`connectionStatus` field equals `"AVAILABLE"`; otherwise sleep 30 seconds and
poll again.  Reading `endpoint["connectionStatus"]` on a truthy object with
no such key raises `KeyError`. -/
def wait_endpoint_available (env : CyclerEnv) (vpceId : String) :
    Nat → Nat → List CEv × Option (Except PyErr Unit)
  | 0, _ => ([], none)
  | fuel + 1, tick =>
    match get_endpoint (env.createFetchReply vpceId tick) with
    | .error e => ([.getEndpointCall vpceId], some (.error e))
    | .ok ep =>
      match ep with
      | some j =>
        if j.isEmpty then
          match wait_endpoint_available env vpceId fuel (tick + 1) with
          | (tr, r) => (.getEndpointCall vpceId :: .sleep 30 :: tr, r)
        else
          match jsonGet j "connectionStatus" with
          | none =>
            ([.getEndpointCall vpceId], some (.error (.keyError "connectionStatus")))
          | some v =>
            if v = "AVAILABLE" then
              ([.getEndpointCall vpceId], some (.ok ()))
            else
              match wait_endpoint_available env vpceId fuel (tick + 1) with
              | (tr, r) => (.getEndpointCall vpceId :: .sleep 30 :: tr, r)
      | none =>
        match wait_endpoint_available env vpceId fuel (tick + 1) with
        | (tr, r) => (.getEndpointCall vpceId :: .sleep 30 :: tr, r)

/-- Body of the first `for vpc_id in VPC_IDS:` loop
(`src/atlas_endpoint_cycler.py:149-159`): look the endpoint up; if one
exists, delete it on the Atlas side, wait until Atlas stops reporting it,
then delete the AWS VPC endpoint. -/
def cycle_delete_one (env : CyclerEnv) (waitFuel : Nat) (vpcId : String) :
    List CEv × Option (Except PyErr Unit) :=
  match get_vpc_endpoint_id (env.describeReply vpcId) with
  | .error e => ([.describeVpcEndpoints vpcId], some (.error e))
  | .ok none => ([.describeVpcEndpoints vpcId], some (.ok ()))
  | .ok (some vpceId) =>
    if vpceId = "" then
      ([.describeVpcEndpoints vpcId], some (.ok ()))
    else
      candThen
        (match delete_endpoint (env.deleteEndpointReply vpceId) with
         | .error e =>
           ([.describeVpcEndpoints vpcId, .deleteEndpointCall vpceId], some (.error e))
         | .ok _ =>
           ([.describeVpcEndpoints vpcId, .deleteEndpointCall vpceId], some (.ok ())))
        fun _ =>
          candThen (wait_endpoint_deleted env vpceId waitFuel 0) fun _ =>
            match env.awsDeleteReply vpceId with
            | .error e => ([.deleteVpcEndpointCall vpceId], some (.error e))
            | .ok _ => ([.deleteVpcEndpointCall vpceId], some (.ok ()))

/-- The first `for` loop of a pass, in list order. -/
def cycle_delete_phase (env : CyclerEnv) (waitFuel : Nat) :
    List String → List CEv × Option (Except PyErr Unit)
  | [] => ([], some (.ok ()))
  | vpcId :: rest =>
    candThen (cycle_delete_one env waitFuel vpcId) fun _ =>
      cycle_delete_phase env waitFuel rest

/-- Body of the second `for i, vpc_id in enumerate(VPC_IDS):` loop
(`src/atlas_endpoint_cycler.py:162-172`): index the subnet and security
group lists at `i` (an out-of-range index raises `IndexError`), create the
AWS VPC endpoint, register it with Atlas, and wait for `"AVAILABLE"`. -/
def cycle_recreate_one (env : CyclerEnv) (waitFuel : Nat)
    (subnets sgs : List String) (i : Nat) (vpcId : String) :
    List CEv × Option (Except PyErr Unit) :=
  match subnets[i]? with
  | none => ([], some (.error .indexError))
  | some subnetId =>
    match sgs[i]? with
    | none => ([], some (.error .indexError))
    | some sgId =>
      match env.awsCreateReply vpcId subnetId sgId with
      | .error e => ([.createVpcEndpointCall vpcId subnetId sgId], some (.error e))
      | .ok vpceId =>
        match create_private_endpoint (env.createEndpointReply vpceId) with
        | .error e =>
          ([.createVpcEndpointCall vpcId subnetId sgId, .createEndpointCall vpceId],
            some (.error e))
        | .ok _ =>
          match wait_endpoint_available env vpceId waitFuel 0 with
          | (tr, r) =>
            (.createVpcEndpointCall vpcId subnetId sgId ::
              .createEndpointCall vpceId :: tr, r)

/-- The second `for` loop of a pass, enumerating from index `i`. -/
def cycle_recreate_phase (env : CyclerEnv) (waitFuel : Nat)
    (subnets sgs : List String) :
    Nat → List String → List CEv × Option (Except PyErr Unit)
  | _, [] => ([], some (.ok ()))
  | i, vpcId :: rest =>
    candThen (cycle_recreate_one env waitFuel subnets sgs i vpcId) fun _ =>
      cycle_recreate_phase env waitFuel subnets sgs (i + 1) rest

/-- One iteration of the `while True:` loop of `cycle_private_endpoints`
(`src/atlas_endpoint_cycler.py:148-176`): delete every endpoint in list
order, sleep 120 seconds, recreate every endpoint in list order, sleep 300
seconds. -/
def cycle_pass (env : CyclerEnv) (waitFuel : Nat)
    (vpcs subnets sgs : List String) : List CEv × Option (Except PyErr Unit) :=
  candThen (cycle_delete_phase env waitFuel vpcs) fun _ =>
    candThen ([CEv.sleep 120], some (.ok ())) fun _ =>
      candThen (cycle_recreate_phase env waitFuel subnets sgs 0 vpcs) fun _ =>
        ([CEv.sleep 300], some (.ok ()))

/-- The `while True:` loop of `cycle_private_endpoints`.  There is no
`try/except` around the body: an exception raised in a pass propagates out
of the loop (and, at the call site `src/atlas_endpoint_cycler.py:179-180`,
terminates the process).  `k` numbers the passes so the oracle may answer
differently on each pass. -/
def cycle_main_loop (envs : Nat → CyclerEnv) (waitFuel : Nat)
    (vpcs subnets sgs : List String) :
    Nat → Nat → List CEv × Option (Except PyErr Unit)
  | _, 0 => ([], none)
  | k, n + 1 =>
    candThen (cycle_pass (envs k) waitFuel vpcs subnets sgs) fun _ =>
      cycle_main_loop envs waitFuel vpcs subnets sgs (k + 1) n

end EndpointCycler

section ConcreteEnvironments

/-! ### Concrete environments and counting helpers used by the theorems -/

/-- Number of GET polls of a given endpoint id recorded in a cycler trace. -/
def fetchCount (vpceId : String) (tr : List CEv) : Nat :=
  (tr.filter fun e => e = CEv.getEndpointCall vpceId).length

/-- Does the configuration contain no `regionConfigs` entry with an
`electableSpecs` key (so that `get_instance_size` finds nothing)? -/
def configNoElectable (config : Config) : Bool :=
  config.replicationSpecs.all fun spec =>
    spec.regionConfigs.all fun rc => rc.electableSpecs.isNone

/-- Decoding that reads only the `stateName` field of the reply body. -/
def decodeStateName (j : Json) : Config :=
  ⟨[], (jsonGet j "stateName").getD ""⟩

/-- A remote cluster that always reports `stateName = "IDLE"` and accepts
every PATCH. -/
def idleEnv : ScalerEnv where
  getReply := fun _ => .success [("stateName", "IDLE")]
  patchReply := fun _ => .success []
  decode := decodeStateName

/-- A remote cluster that reports `"UPDATING"` on the first GET and
`"IDLE"` from the second GET on. -/
def twoTickEnv : ScalerEnv where
  getReply := fun n =>
    if n = 0 then .success [("stateName", "UPDATING")]
    else .success [("stateName", "IDLE")]
  patchReply := fun _ => .success []
  decode := decodeStateName

/-- A remote cluster whose current electable instance size is `"M30"` and
whose state is `"IDLE"`; every request succeeds. -/
def offSizeEnv : ScalerEnv where
  getReply := fun _ => .success []
  patchReply := fun _ => .success []
  decode := fun _ => ⟨[⟨[⟨some ⟨"M30"⟩, none, none⟩]⟩], "IDLE"⟩

/-- A cycler environment in which everything succeeds at the first attempt:
each VPC has an existing endpoint, deletion is observed immediately (404 on
the first poll), creation yields a fresh endpoint id, and the new endpoint is
`"AVAILABLE"` on the first poll. -/
def steadyEnv : CyclerEnv where
  describeReply := fun vpcId => .ok [[("VpcEndpointId", vpcId ++ "-e")]]
  deleteEndpointReply := fun _ => .success []
  deleteFetchReply := fun _ _ => .httpError 404
  awsDeleteReply := fun _ => .ok ()
  awsCreateReply := fun vpcId _ _ => .ok (vpcId ++ "-n")
  createEndpointReply := fun _ => .success []
  createFetchReply := fun _ _ => .success [("connectionStatus", "AVAILABLE")]

/-- A cycler environment in which the very first remote call of a pass (the
AWS describe) fails with an HTTP 500. -/
def failingEnv : CyclerEnv where
  describeReply := fun _ => .error (.http 500)
  deleteEndpointReply := fun _ => .success []
  deleteFetchReply := fun _ _ => .httpError 404
  awsDeleteReply := fun _ => .ok ()
  awsCreateReply := fun vpcId _ _ => .ok (vpcId ++ "-n")
  createEndpointReply := fun _ => .success []
  createFetchReply := fun _ _ => .success [("connectionStatus", "AVAILABLE")]

/-- A cycler environment whose deletion poll finds the endpoint on tick 0 and
fails with an HTTP 500 on every later tick. -/
def transportFailEnv : CyclerEnv where
  describeReply := fun vpcId => .ok [[("VpcEndpointId", vpcId ++ "-e")]]
  deleteEndpointReply := fun _ => .success []
  deleteFetchReply := fun _ t =>
    if t = 0 then .success [("connectionStatus", "DELETING")] else .httpError 500
  awsDeleteReply := fun _ => .ok ()
  awsCreateReply := fun vpcId _ _ => .ok (vpcId ++ "-n")
  createEndpointReply := fun _ => .success []
  createFetchReply := fun _ _ => .success [("connectionStatus", "AVAILABLE")]

/-- A cycler environment whose deletion polls all fail at the network level
(no HTTP response at all). -/
def netFailEnv : CyclerEnv where
  describeReply := fun vpcId => .ok [[("VpcEndpointId", vpcId ++ "-e")]]
  deleteEndpointReply := fun _ => .success []
  deleteFetchReply := fun _ _ => .netError
  awsDeleteReply := fun _ => .ok ()
  awsCreateReply := fun vpcId _ _ => .ok (vpcId ++ "-n")
  createEndpointReply := fun _ => .success []
  createFetchReply := fun _ _ => .success [("connectionStatus", "AVAILABLE")]

end ConcreteEnvironments

section Claims

/-! ## Helper lemmas -/

/-- Appending traces adds the PATCH counts. -/
theorem patchCount_append (a b : List SEv) :
    patchCount (a ++ b) = patchCount a + patchCount b := by
  simp [patchCount, List.filter_append]

/-- The convergence wait loop of the scaler never issues a PATCH: its trace
is made of fetches and sleeps only. -/
theorem wait_for_cluster_update_patch_free (env : ScalerEnv) :
    ∀ (fuel : Nat) (c : SCnt),
    patchCount (wait_for_cluster_update env fuel c).1 = 0 := by
  intro fuel
  induction fuel with
  | zero => intro c; rfl
  | succ m ih =>
    intro c
    cases hg : env.getReply c.gets with
    | success body =>
      by_cases hs : (env.decode body).stateName = "IDLE" <;>
        simp [wait_for_cluster_update, get_current_cluster_config, hg, hs,
          patchCount, isPatchEv, List.filter_append] <;>
        simpa [patchCount] using ih ⟨c.gets + 1, c.patches⟩
    | httpError s =>
      simp [wait_for_cluster_update, get_current_cluster_config, hg,
        patchCount, isPatchEv]
    | netError =>
      simp [wait_for_cluster_update, get_current_cluster_config, hg,
        patchCount, isPatchEv]

/-! ## C4 -/

/-- C4: for every pair of configured size labels and every observed current
size equal to one of them, the toggle of `main` computes the other element
of the pair. -/
theorem c4_toggle_other_of_pair (scaleFrom scaleTo currentSize : String) :
    (currentSize = scaleFrom → toggle_size scaleFrom scaleTo currentSize = scaleTo)
    ∧ (currentSize = scaleTo → toggle_size scaleFrom scaleTo currentSize = scaleFrom) := by
  constructor
  · intro h
    simp [toggle_size, h]
  · intro h
    subst h
    by_cases h2 : currentSize = scaleFrom <;> simp [toggle_size, h2]

/-- Witness for C4 at the concrete pair ("M10", "M20"). -/
theorem c4_toggle_other_of_pair_witness :
    toggle_size "M10" "M20" "M10" = "M20" ∧ toggle_size "M10" "M20" "M20" = "M10" :=
  ⟨(c4_toggle_other_of_pair "M10" "M20" "M10").1 rfl,
   (c4_toggle_other_of_pair "M10" "M20" "M20").2 rfl⟩

/-! ## C3 -/

/-- C3 counterexample: with configured labels "M10" and "M20" and an observed
size "M30" equal to neither, the scaler does not treat the state as an error
and does not abort: the toggle silently picks "M10", the iteration issues
the PATCH (one mutate call) and completes normally. -/
theorem c3_no_abort_counterexample :
    toggle_size "M10" "M20" "M30" = "M10"
    ∧ scaler_try_body offSizeEnv "M10" "M20" 300 3 ⟨0, 0⟩ =
        ([.getCluster, .getCluster,
          .patchCluster [⟨[⟨some ⟨"M10"⟩, none, none⟩]⟩],
          .getCluster, .sleep 300], some (.ok ()), ⟨3, 1⟩)
    ∧ patchCount (scaler_try_body offSizeEnv "M10" "M20" 300 3 ⟨0, 0⟩).1 = 1 :=
  ⟨rfl, rfl, rfl⟩

/-- C3 (amended): when the observed current size label equals neither of the
two configured labels, the toggle policy does not abort; it falls back to
`SCALE_FROM` as the target size and the operation proceeds. -/
theorem c3_toggle_fallback_amended (scaleFrom scaleTo currentSize : String)
    (h1 : currentSize ≠ scaleFrom) (h2 : currentSize ≠ scaleTo) :
    toggle_size scaleFrom scaleTo currentSize = scaleFrom := by
  simp [toggle_size, h1]

/-- Witness for the amended C3 at the concrete sizes ("M10", "M20", "M30"). -/
theorem c3_toggle_fallback_amended_witness :
    toggle_size "M10" "M20" "M30" = "M10" :=
  c3_toggle_fallback_amended "M10" "M20" "M30" (by decide) (by decide)

/-! ## C7 -/

/-- C7: in the deletion flow (where not-found means success), if every poll
reports the endpoint absent (HTTP 404), the deletion wait loop terminates
successfully at the very first tick: its whole trace is a single fetch, with
no sleep and no further fetch. -/
theorem c7_notfound_first_tick (env : CyclerEnv) (vpceId : String) (fuel : Nat)
    (hfuel : 1 ≤ fuel)
    (habs : ∀ t, env.deleteFetchReply vpceId t = .httpError 404) :
    wait_endpoint_deleted env vpceId fuel 0 =
      ([CEv.getEndpointCall vpceId], some (.ok ())) := by
  cases fuel with
  | zero => omega
  | succ m =>
    simp [wait_endpoint_deleted, habs 0, get_endpoint, pyTruthyJson]

/-- Witness for C7: the steady environment answers 404 to every deletion
poll, and the wait loop stops after one fetch. -/
theorem c7_notfound_first_tick_witness :
    wait_endpoint_deleted steadyEnv "vpc1-e" 2 0 =
      ([CEv.getEndpointCall "vpc1-e"], some (.ok ())) :=
  c7_notfound_first_tick steadyEnv "vpc1-e" 2 (by decide) (fun _ => rfl)

/-! ## C5 -/

/-- C5: one transition of the scaler (the single `update_cluster_size` call
followed by `wait_for_cluster_update`) issues the mutate (PATCH) at most
once, exactly once whenever the update call returns normally — regardless of
how many poll ticks the wait takes — and the wait loop itself performs only
read-only fetches, never a PATCH. -/
theorem c5_mutate_exactly_once (env : ScalerEnv) (newSize : String) (c : SCnt)
    (waitFuel : Nat) :
    patchCount (update_cluster_size env newSize c).1 ≤ 1
    ∧ ((update_cluster_size env newSize c).2.1 = .ok () →
        patchCount ((update_cluster_size env newSize c).1 ++
          (wait_for_cluster_update env waitFuel
            (update_cluster_size env newSize c).2.2).1) = 1)
    ∧ patchCount (wait_for_cluster_update env waitFuel c).1 = 0 := by
  refine ⟨?_, ?_, wait_for_cluster_update_patch_free env waitFuel c⟩
  · cases hg : env.getReply c.gets with
    | success body =>
      cases hp : env.patchReply c.patches <;>
        simp [update_cluster_size, get_current_cluster_config, hg, hp,
          patchCount, isPatchEv, List.filter_append]
    | httpError s =>
      simp [update_cluster_size, get_current_cluster_config, hg,
        patchCount, isPatchEv]
    | netError =>
      simp [update_cluster_size, get_current_cluster_config, hg,
        patchCount, isPatchEv]
  · intro hok
    rw [patchCount_append, wait_for_cluster_update_patch_free]
    cases hg : env.getReply c.gets with
    | success body =>
      cases hp : env.patchReply c.patches <;>
        simp [update_cluster_size, get_current_cluster_config, hg, hp,
          patchCount, isPatchEv, List.filter_append] at hok ⊢
    | httpError s =>
      simp [update_cluster_size, get_current_cluster_config, hg] at hok
    | netError =>
      simp [update_cluster_size, get_current_cluster_config, hg] at hok

/-- Witness for C5 against the always-IDLE cluster: the update issues one
PATCH and the update-plus-wait trace contains exactly one PATCH. -/
theorem c5_mutate_exactly_once_witness :
    (update_cluster_size idleEnv "M20" ⟨0, 0⟩).2.1 = .ok ()
    ∧ patchCount ((update_cluster_size idleEnv "M20" ⟨0, 0⟩).1 ++
        (wait_for_cluster_update idleEnv 4
          (update_cluster_size idleEnv "M20" ⟨0, 0⟩).2.2).1) = 1 :=
  ⟨rfl, (c5_mutate_exactly_once idleEnv "M20" ⟨0, 0⟩ 4).2.1 rfl⟩


/-! ## C8 -/

/-- C8 counterexample: against a cluster that already reports IDLE, the very
first recorded event of `wait_for_cluster_update` is the fetch; the whole
trace is that single fetch, so no sleep precedes the fetch and no sleep
occurs at all.  This refutes the claimed per-iteration order
"sleep, then fetch, then predicate": the loop fetches first and would sleep
only afterwards. -/
theorem c8_fetch_before_sleep_counterexample :
    wait_for_cluster_update idleEnv 5 ⟨0, 0⟩ =
      ([SEv.getCluster], some (.ok ()), ⟨1, 0⟩)
    ∧ (wait_for_cluster_update idleEnv 5 ⟨0, 0⟩).1.head? = some SEv.getCluster
    ∧ (wait_for_cluster_update idleEnv 5 ⟨0, 0⟩).1.length = 1 :=
  ⟨rfl, rfl, rfl⟩

/-- C8 (amended): after the single mutate call, each polling iteration of
the wait loop performs the fetch first, then evaluates the predicate, and
sleeps the poll interval only when it must keep polling; the transition
returns success on the first tick the predicate holds, and when the predicate
already holds on the first poll the trace is exactly one fetch with no sleep.
Concretely, when the first `k` polls report a non-IDLE state and poll `k`
reports IDLE, the trace is `k` fetch-sleep pairs followed by one final
fetch. -/
theorem c8_poll_order_amended (env : ScalerEnv) (c : SCnt) (k fuel : Nat)
    (hfuel : k < fuel)
    (hpend : ∀ t, t < k → ∃ body, env.getReply (c.gets + t) = .success body ∧
      (env.decode body).stateName ≠ "IDLE")
    (hidle : ∃ body, env.getReply (c.gets + k) = .success body ∧
      (env.decode body).stateName = "IDLE") :
    wait_for_cluster_update env fuel c =
      (scalerPollTrace k, some (.ok ()), ⟨c.gets + k + 1, c.patches⟩) := by
  induction k generalizing c fuel with
  | zero =>
    obtain ⟨body, hb, hs⟩ := hidle
    cases fuel with
    | zero => omega
    | succ m =>
      rw [Nat.add_zero] at hb
      simp [wait_for_cluster_update, get_current_cluster_config, hb, hs,
        scalerPollTrace]
  | succ n ih =>
    obtain ⟨body, hb, hs⟩ := hpend 0 (Nat.succ_pos n)
    rw [Nat.add_zero] at hb
    cases fuel with
    | zero => omega
    | succ m =>
      have hrec := ih ⟨c.gets + 1, c.patches⟩ m (by omega)
        (fun t ht => by
          obtain ⟨b, h1, h2⟩ := hpend (t + 1) (by omega)
          exact ⟨b, by rw [show c.gets + 1 + t = c.gets + (t + 1) by omega]; exact h1, h2⟩)
        (by
          obtain ⟨b, h1, h2⟩ := hidle
          exact ⟨b, by rw [show c.gets + 1 + n = c.gets + (n + 1) by omega]; exact h1, h2⟩)
      simp [wait_for_cluster_update, get_current_cluster_config, hb, hs, hrec,
        scalerPollTrace]
      omega

/-- Witness for the amended C8: one non-IDLE poll then an IDLE one gives the
trace fetch, sleep 60, fetch. -/
theorem c8_poll_order_amended_witness :
    wait_for_cluster_update twoTickEnv 3 ⟨0, 0⟩ =
      (scalerPollTrace 1, some (.ok ()), ⟨2, 0⟩) :=
  c8_poll_order_amended twoTickEnv ⟨0, 0⟩ 1 3 (by decide)
    (fun t ht => by
      have : t = 0 := by omega
      subst this
      exact ⟨[("stateName", "UPDATING")], rfl, by decide⟩)
    ⟨[("stateName", "IDLE")], rfl, by decide⟩

/-! ## C6 -/

/-- Inductive core of C6: if the first `N` deletion polls observe a present
(truthy) endpoint and the fetch at poll `N` raises a transport error `e`
(any reply `get_endpoint` turns into an exception), the deletion wait loop
stops with exactly that error after exactly `N + 1` fetches. -/
theorem wait_endpoint_deleted_transport (env : CyclerEnv) (vpceId : String)
    (e : PyErr) :
    ∀ (N fuel t : Nat), N < fuel →
    (∀ k, k < N → ∃ j, env.deleteFetchReply vpceId (t + k) = .success j ∧
      j ≠ ([] : Json)) →
    get_endpoint (env.deleteFetchReply vpceId (t + N)) = .error e →
    (wait_endpoint_deleted env vpceId fuel t).2 = some (.error e)
    ∧ fetchCount vpceId (wait_endpoint_deleted env vpceId fuel t).1 = N + 1 := by
  intro N
  induction N with
  | zero =>
    intro fuel t hfuel _ herr
    rw [Nat.add_zero] at herr
    cases fuel with
    | zero => omega
    | succ m =>
      simp [wait_endpoint_deleted, herr, fetchCount]
  | succ n ih =>
    intro fuel t hfuel hpre herr
    cases fuel with
    | zero => omega
    | succ m =>
      obtain ⟨j, hj, hne⟩ := hpre 0 (Nat.succ_pos n)
      rw [Nat.add_zero] at hj
      have hrec := ih m (t + 1) (by omega)
        (fun k hk => by
          obtain ⟨j2, h1, h2⟩ := hpre (k + 1) (by omega)
          exact ⟨j2, by rw [show t + 1 + k = t + (k + 1) by omega]; exact h1, h2⟩)
        (by rw [show t + 1 + n = t + (n + 1) by omega]; exact herr)
      rcases hw : wait_endpoint_deleted env vpceId m (t + 1) with ⟨tr, r⟩
      rw [hw] at hrec
      simp [wait_endpoint_deleted, hj, get_endpoint, pyTruthyJson, hne, hw,
        fetchCount] at hrec ⊢
      exact ⟨hrec.1, by omega⟩

/-- C6: if the fetch at poll tick `N` fails with a transport error other
than HTTP 404 â an HTTP error status `s ≠ 404` or a network-level failure â
(after `N` polls that saw the endpoint still present), the wait loop aborts
at that tick with exactly that error, having made exactly `N + 1` fetches:
no further fetch and no internal retry, and the error propagates out of the
loop; a 404 response is not an error but the not-found result. -/
theorem c6_transport_error_aborts (env : CyclerEnv) (vpceId : String)
    (e : PyErr) (N fuel : Nat) (hfuel : N < fuel)
    (hpre : ∀ k, k < N → ∃ j, env.deleteFetchReply vpceId k = .success j ∧
      j ≠ ([] : Json))
    (herr : (∃ s, s ≠ 404 ∧ env.deleteFetchReply vpceId N = .httpError s ∧
        e = .http s)
      ∨ (env.deleteFetchReply vpceId N = .netError ∧ e = .network)) :
    get_endpoint (HttpResult.httpError 404) = .ok none
    ∧ (wait_endpoint_deleted env vpceId fuel 0).2 = some (.error e)
    ∧ fetchCount vpceId (wait_endpoint_deleted env vpceId fuel 0).1 = N + 1 := by
  have hge : get_endpoint (env.deleteFetchReply vpceId N) = .error e := by
    rcases herr with ⟨s, hs, hrep, he⟩ | ⟨hrep, he⟩
    · rw [hrep, he]
      simp [get_endpoint, hs]
    · rw [hrep, he]
      simp [get_endpoint]
  have h := wait_endpoint_deleted_transport env vpceId e N fuel 0 hfuel
    (fun k hk => by simpa using hpre k hk) (by simpa using hge)
  exact ⟨rfl, h.1, h.2⟩

/-- Witness for C6, exercising both transport-error classes: the endpoint is
present on tick 0 and tick 1 fails with HTTP 500 (abort after two fetches),
and a run whose very first poll fails at the network level aborts after one
fetch with the network error. -/
theorem c6_transport_error_aborts_witness :
    (get_endpoint (HttpResult.httpError 404) = .ok none
      ∧ (wait_endpoint_deleted transportFailEnv "x" 5 0).2 =
          some (.error (.http 500))
      ∧ fetchCount "x" (wait_endpoint_deleted transportFailEnv "x" 5 0).1 = 2)
    ∧ (get_endpoint (HttpResult.httpError 404) = .ok none
      ∧ (wait_endpoint_deleted netFailEnv "y" 3 0).2 = some (.error .network)
      ∧ fetchCount "y" (wait_endpoint_deleted netFailEnv "y" 3 0).1 = 1) :=
  ⟨c6_transport_error_aborts transportFailEnv "x" (.http 500) 1 5 (by decide)
      (fun k hk => by
        have : k = 0 := by omega
        subst this
        exact ⟨[("connectionStatus", "DELETING")], rfl, by decide⟩)
      (Or.inl ⟨500, by decide, rfl, rfl⟩),
   c6_transport_error_aborts netFailEnv "y" .network 0 3 (by decide)
      (fun k hk => absurd hk (by omega))
      (Or.inr ⟨rfl, rfl⟩)⟩

/-! ## C9 -/

/-- No `regionConfigs` entry with an `electableSpecs` key means the inner
scan finds nothing. -/
theorem findElectableSize_eq_none (rcs : List RegionConfig)
    (h : ∀ rc ∈ rcs, rc.electableSpecs = none) :
    findElectableSize rcs = none := by
  induction rcs with
  | nil => rfl
  | cons rc rest ih =>
    have h1 := h rc (by simp)
    simp only [findElectableSize, h1]
    exact ih fun x hx => h x (by simp [hx])

/-- No electable specs in any replication spec means the outer scan finds
nothing. -/
theorem findElectableSizeSpecs_eq_none (specs : List ReplicationSpec)
    (h : ∀ spec ∈ specs, ∀ rc ∈ spec.regionConfigs, rc.electableSpecs = none) :
    findElectableSizeSpecs specs = none := by
  induction specs with
  | nil => rfl
  | cons spec rest ih =>
    simp only [findElectableSizeSpecs,
      findElectableSize_eq_none spec.regionConfigs (h spec (by simp))]
    exact ih fun sp hsp => h sp (by simp [hsp])

/-- A configuration with no electable specs anywhere yields no instance
size. -/
theorem get_instance_size_eq_none (config : Config)
    (h : configNoElectable config = true) :
    get_instance_size config = none := by
  unfold get_instance_size
  exact findElectableSizeSpecs_eq_none config.replicationSpecs
    (by simpa [configNoElectable] using h)

/-- C9: when the fetched configuration contains no region configuration with
an `electableSpecs` entry, `get_instance_size` returns `None`, the iteration
of `main` issues no PATCH at all â its whole trace is the fetch and the
configured sleep â and the loop then retries from a fresh fetch (the next
iteration starts with the GET counter advanced by one). -/
theorem c9_skip_update_when_size_unknown (env : ScalerEnv) (c : SCnt)
    (body : Json) (hget : env.getReply c.gets = .success body)
    (hnone : configNoElectable (env.decode body) = true)
    (scaleFrom scaleTo : String) (sleepInterval waitFuel : Nat) :
    get_instance_size (env.decode body) = none
    ∧ scaler_try_body env scaleFrom scaleTo sleepInterval waitFuel c =
        ([.getCluster, .sleep sleepInterval], some (.ok ()),
          ⟨c.gets + 1, c.patches⟩)
    ∧ patchCount (scaler_try_body env scaleFrom scaleTo sleepInterval waitFuel c).1 = 0
    ∧ ∀ n, scaler_main_loop env scaleFrom scaleTo sleepInterval waitFuel (n + 1) c =
        (SEv.getCluster :: SEv.sleep sleepInterval ::
          (scaler_main_loop env scaleFrom scaleTo sleepInterval waitFuel n
            ⟨c.gets + 1, c.patches⟩).1,
         (scaler_main_loop env scaleFrom scaleTo sleepInterval waitFuel n
            ⟨c.gets + 1, c.patches⟩).2.1,
         (scaler_main_loop env scaleFrom scaleTo sleepInterval waitFuel n
            ⟨c.gets + 1, c.patches⟩).2.2) := by
  have hsize := get_instance_size_eq_none (env.decode body) hnone
  have hbody : scaler_try_body env scaleFrom scaleTo sleepInterval waitFuel c =
      ([.getCluster, .sleep sleepInterval], some (.ok ()),
        ⟨c.gets + 1, c.patches⟩) := by
    simp [scaler_try_body, get_current_cluster_config, hget, hsize]
  refine ⟨hsize, hbody, by simp [hbody, patchCount, isPatchEv], ?_⟩
  intro n
  rcases hr : scaler_main_loop env scaleFrom scaleTo sleepInterval waitFuel n
      ⟨c.gets + 1, c.patches⟩ with ⟨tr, r, c2⟩
  simp [scaler_main_loop, hbody, hr]

/-- Witness for C9 against the always-IDLE cluster, whose configuration has
no replication specs at all. -/
theorem c9_skip_update_when_size_unknown_witness :
    get_instance_size (idleEnv.decode [("stateName", "IDLE")]) = none
    ∧ scaler_try_body idleEnv "M10" "M20" 300 3 ⟨0, 0⟩ =
        ([.getCluster, .sleep 300], some (.ok ()), ⟨1, 0⟩) :=
  ⟨(c9_skip_update_when_size_unknown idleEnv ⟨0, 0⟩ [("stateName", "IDLE")]
      rfl (by decide) "M10" "M20" 300 3).1,
   (c9_skip_update_when_size_unknown idleEnv ⟨0, 0⟩ [("stateName", "IDLE")]
      rfl (by decide) "M10" "M20" 300 3).2.1⟩


/-! ## C2 -/

/-- C2 counterexample: in the endpoint cycler an HTTP 500 raised by the very
first remote call of a pass escapes the `while True:` loop â the run ends
with the propagated error instead of a logged retry â because
`cycle_private_endpoints` has no `try/except`.  This refutes the claim that
every error during a cycling operation is caught, logged, and followed by a
cool-down and restart. -/
theorem c2_cycler_error_escapes :
    cycle_main_loop (fun _ => failingEnv) 2 ["vpc1"] ["s1"] ["g1"] 0 3 =
      ([CEv.describeVpcEndpoints "vpc1"], some (.error (.http 500))) :=
  rfl

/-- C2 (amended): the two scripts differ.  In the cluster scaler, `main`
wraps each iteration in `try/except`, so every error is caught and the loop
never terminates with an escaped error (its result is always `none`: still
running).  In the endpoint cycler there is no handler: whenever a pass
raises an error, the `while True:` loop propagates exactly that error and
the process terminates. -/
theorem c2_error_handling_amended :
    (∀ (env : ScalerEnv) (scaleFrom scaleTo : String)
       (sleepInterval waitFuel n : Nat) (c : SCnt),
       (scaler_main_loop env scaleFrom scaleTo sleepInterval waitFuel n c).2.1 = none)
    ∧ (∀ (envs : Nat → CyclerEnv) (waitFuel : Nat)
        (vpcs subnets sgs : List String) (k n : Nat) (e : PyErr),
        (cycle_pass (envs k) waitFuel vpcs subnets sgs).2 = some (.error e) →
        (cycle_main_loop envs waitFuel vpcs subnets sgs k (n + 1)).2 =
          some (.error e)) := by
  constructor
  · intro env scaleFrom scaleTo sleepInterval waitFuel n
    induction n with
    | zero => intro c; rfl
    | succ m ih =>
      intro c
      rcases hb : scaler_try_body env scaleFrom scaleTo sleepInterval waitFuel c
        with ⟨tr, r, c2⟩
      rcases hr : scaler_main_loop env scaleFrom scaleTo sleepInterval waitFuel m c2
        with ⟨tr2, r2, c3⟩
      have hih := ih c2
      rw [hr] at hih
      rcases r with _ | (e | a) <;>
        simp [scaler_main_loop, hb, hr] <;> simpa using hih
  · intro envs waitFuel vpcs subnets sgs k n e h
    rcases hp : cycle_pass (envs k) waitFuel vpcs subnets sgs with ⟨tr, r⟩
    rw [hp] at h
    simp at h
    subst h
    simp [cycle_main_loop, candThen, hp]

/-- Witness for the amended C2: the scaler loop result stays `none` on a
concrete run, and a cycler pass failing with HTTP 500 makes the loop end
with that error. -/
theorem c2_error_handling_amended_witness :
    (scaler_main_loop idleEnv "M10" "M20" 300 3 2 ⟨0, 0⟩).2.1 = none
    ∧ (cycle_main_loop (fun _ => failingEnv) 2 ["vpc2"] ["s1"] ["g1"] 0 1).2 =
        some (.error (.http 500)) :=
  ⟨c2_error_handling_amended.1 idleEnv "M10" "M20" 300 3 2 ⟨0, 0⟩,
   c2_error_handling_amended.2 (fun _ => failingEnv) 2 ["vpc2"] ["s1"] ["g1"]
     0 0 (.http 500) rfl⟩

/-! ## C1 -/

/-- C1 counterexample: over the two-identifier list `["vpc1", "vpc2"]` in an
environment where everything succeeds immediately, the pass deletes the
endpoint of `"vpc2"` (its Atlas DELETE is among the first nine events)
before the recreation of `"vpc1"` even starts (its AWS create appears only
later in the trace).  This refutes the claim that no operation on
identifier `i + 1` is issued before identifier `i`'s recreate-wait has
finished: the source runs one full deletion loop over all identifiers
before the recreation loop. -/
theorem c1_interleaving_counterexample :
    cycle_pass steadyEnv 2 ["vpc1", "vpc2"] ["s1", "s2"] ["g1", "g2"] =
      ([.describeVpcEndpoints "vpc1", .deleteEndpointCall "vpc1-e",
        .getEndpointCall "vpc1-e", .deleteVpcEndpointCall "vpc1-e",
        .describeVpcEndpoints "vpc2", .deleteEndpointCall "vpc2-e",
        .getEndpointCall "vpc2-e", .deleteVpcEndpointCall "vpc2-e",
        .sleep 120,
        .createVpcEndpointCall "vpc1" "s1" "g1", .createEndpointCall "vpc1-n",
        .getEndpointCall "vpc1-n",
        .createVpcEndpointCall "vpc2" "s2" "g2", .createEndpointCall "vpc2-n",
        .getEndpointCall "vpc2-n",
        .sleep 300], some (.ok ()))
    ∧ CEv.deleteEndpointCall "vpc2-e" ∈
        (cycle_pass steadyEnv 2 ["vpc1", "vpc2"] ["s1", "s2"] ["g1", "g2"]).1.take 9
    ∧ CEv.createVpcEndpointCall "vpc1" "s1" "g1" ∉
        (cycle_pass steadyEnv 2 ["vpc1", "vpc2"] ["s1", "s2"] ["g1", "g2"]).1.take 9
    ∧ CEv.createVpcEndpointCall "vpc1" "s1" "g1" ∈
        (cycle_pass steadyEnv 2 ["vpc1", "vpc2"] ["s1", "s2"] ["g1", "g2"]).1 :=
  ⟨rfl, by decide, by decide, by decide⟩

/-- A completed deletion phase is the concatenation, in list order, of the
per-identifier deletion traces. -/
theorem cycle_delete_phase_trace (env : CyclerEnv) (wf : Nat) :
    ∀ vpcs : List String, (cycle_delete_phase env wf vpcs).2 = some (.ok ()) →
    (cycle_delete_phase env wf vpcs).1 =
      (vpcs.map fun v => (cycle_delete_one env wf v).1).flatten := by
  intro vpcs
  induction vpcs with
  | nil => intro _; rfl
  | cons v rest ih =>
    intro h
    rcases h1 : cycle_delete_one env wf v with ⟨tr, r⟩
    rcases h2 : cycle_delete_phase env wf rest with ⟨tr2, r2⟩
    rcases r with _ | (e | a)
    · simp [cycle_delete_phase, candThen, h1] at h
    · simp [cycle_delete_phase, candThen, h1] at h
    · have hrest : r2 = some (.ok ()) := by
        simpa [cycle_delete_phase, candThen, h1, h2] using h
      have h3 := ih (by rw [h2, hrest])
      rw [h2] at h3
      simp [cycle_delete_phase, candThen, h1, h2, h3]

/-- A completed recreation phase is the concatenation, in enumeration order,
of the per-identifier recreation traces. -/
theorem cycle_recreate_phase_trace (env : CyclerEnv) (wf : Nat)
    (subnets sgs : List String) :
    ∀ (vpcs : List String) (i : Nat),
    (cycle_recreate_phase env wf subnets sgs i vpcs).2 = some (.ok ()) →
    (cycle_recreate_phase env wf subnets sgs i vpcs).1 =
      ((vpcs.enumFrom i).map fun p =>
        (cycle_recreate_one env wf subnets sgs p.1 p.2).1).flatten := by
  intro vpcs
  induction vpcs with
  | nil => intro i _; rfl
  | cons v rest ih =>
    intro i h
    rcases h1 : cycle_recreate_one env wf subnets sgs i v with ⟨tr, r⟩
    rcases h2 : cycle_recreate_phase env wf subnets sgs (i + 1) rest with ⟨tr2, r2⟩
    rcases r with _ | (e | a)
    · simp [cycle_recreate_phase, candThen, h1] at h
    · simp [cycle_recreate_phase, candThen, h1] at h
    · have hrest : r2 = some (.ok ()) := by
        simpa [cycle_recreate_phase, candThen, h1, h2] using h
      have h3 := ih (i + 1) (by rw [h2, hrest])
      rw [h2] at h3
      simp [cycle_recreate_phase, candThen, h1, h2, h3, List.enumFrom]

/-- A completed pass splits into the deletion phase, the fixed 120-second
sleep, the recreation phase, and the final 300-second sleep; both phases
completed. -/
theorem cycle_pass_structure (env : CyclerEnv) (wf : Nat)
    (vpcs subnets sgs : List String)
    (h : (cycle_pass env wf vpcs subnets sgs).2 = some (.ok ())) :
    (cycle_delete_phase env wf vpcs).2 = some (.ok ())
    ∧ (cycle_recreate_phase env wf subnets sgs 0 vpcs).2 = some (.ok ())
    ∧ (cycle_pass env wf vpcs subnets sgs).1 =
        (cycle_delete_phase env wf vpcs).1 ++
          CEv.sleep 120 ::
            ((cycle_recreate_phase env wf subnets sgs 0 vpcs).1 ++
              [CEv.sleep 300]) := by
  rcases h1 : cycle_delete_phase env wf vpcs with ⟨tr1, r1⟩
  rcases h2 : cycle_recreate_phase env wf subnets sgs 0 vpcs with ⟨tr2, r2⟩
  rcases r1 with _ | (e | a)
  · simp [cycle_pass, candThen, h1] at h
  · simp [cycle_pass, candThen, h1] at h
  · rcases r2 with _ | (e | b)
    · simp [cycle_pass, candThen, h1, h2] at h
    · simp [cycle_pass, candThen, h1, h2] at h
    · exact ⟨rfl, rfl, by simp [cycle_pass, candThen, h1, h2]⟩

/-- C1 (amended): within one pass, each phase is strictly sequential in list
order â the trace of a completed pass is the concatenation of the
per-identifier deletion traces (identifier `i`'s delete-and-wait completes
before identifier `i + 1`'s starts), then the 120-second sleep, then the
concatenation of the per-identifier recreation traces (identifier `i`'s
recreate-and-wait completes before identifier `i + 1`'s starts), then the
300-second sleep.  However, the deletion of every identifier â including
identifier `i + 1` â precedes the recreation of identifier `i`: teardown
and recreation are two separate passes over the list, not one
delete-then-recreate cycle per identifier. -/
theorem c1_pass_phase_structure (env : CyclerEnv) (wf : Nat)
    (vpcs subnets sgs : List String)
    (h : (cycle_pass env wf vpcs subnets sgs).2 = some (.ok ())) :
    (cycle_pass env wf vpcs subnets sgs).1 =
      (vpcs.map fun v => (cycle_delete_one env wf v).1).flatten ++
        CEv.sleep 120 ::
          (((vpcs.enumFrom 0).map fun p =>
            (cycle_recreate_one env wf subnets sgs p.1 p.2).1).flatten ++
            [CEv.sleep 300]) := by
  obtain ⟨hd, hr, htr⟩ := cycle_pass_structure env wf vpcs subnets sgs h
  rw [htr, cycle_delete_phase_trace env wf vpcs hd,
    cycle_recreate_phase_trace env wf subnets sgs vpcs 0 hr]

/-- Witness for the amended C1 on the steady two-identifier run. -/
theorem c1_pass_phase_structure_witness :
    (cycle_pass steadyEnv 2 ["vpc1", "vpc2"] ["s1", "s2"] ["g1", "g2"]).2 =
      some (.ok ())
    ∧ (cycle_pass steadyEnv 2 ["vpc1", "vpc2"] ["s1", "s2"] ["g1", "g2"]).1 =
        ((["vpc1", "vpc2"]).map fun v => (cycle_delete_one steadyEnv 2 v).1).flatten ++
          CEv.sleep 120 ::
            (((["vpc1", "vpc2"].enumFrom 0).map fun p =>
              (cycle_recreate_one steadyEnv 2 ["s1", "s2"] ["g1", "g2"] p.1 p.2).1).flatten ++
              [CEv.sleep 300]) :=
  ⟨rfl, c1_pass_phase_structure steadyEnv 2 ["vpc1", "vpc2"] ["s1", "s2"]
    ["g1", "g2"] rfl⟩


/-! ## C10 -/

/-- The recreation wait loop can fail only with a transport error or a
`KeyError`, never with an `IndexError`. -/
theorem wait_endpoint_available_no_indexErr (env : CyclerEnv) (vpceId : String) :
    ∀ (fuel tick : Nat),
    (wait_endpoint_available env vpceId fuel tick).2 ≠
      some (.error .indexError) := by
  intro fuel
  induction fuel with
  | zero => intro t; simp [wait_endpoint_available]
  | succ m ih =>
    intro t
    have hrec := ih (t + 1)
    rcases hw : wait_endpoint_available env vpceId m (t + 1) with ⟨tr, r⟩
    rw [hw] at hrec
    cases hg : env.createFetchReply vpceId t with
    | success j =>
      by_cases he : j.isEmpty
      · simpa [wait_endpoint_available, hg, get_endpoint, he, hw] using hrec
      · cases hj : jsonGet j "connectionStatus" with
        | none => simp [wait_endpoint_available, hg, get_endpoint, he, hj]
        | some v =>
          by_cases hv : v = "AVAILABLE"
          · simp [wait_endpoint_available, hg, get_endpoint, he, hj, hv]
          · simpa [wait_endpoint_available, hg, get_endpoint, he, hj, hv, hw]
              using hrec
    | httpError st =>
      by_cases h4 : st = 404
      · subst h4
        simpa [wait_endpoint_available, hg, get_endpoint, hw] using hrec
      · simp [wait_endpoint_available, hg, get_endpoint, h4]
    | netError => simp [wait_endpoint_available, hg, get_endpoint]

/-- When both configured lists are long enough at index `i`, one recreation
step cannot raise an `IndexError`, provided the AWS create reply does not
itself carry one. -/
theorem cycle_recreate_one_no_indexErr (env : CyclerEnv) (wf : Nat)
    (subnets sgs : List String) (i : Nat) (vpcId : String)
    (hA : ∀ v s g, env.awsCreateReply v s g ≠ .error .indexError)
    (hs : i < subnets.length) (hg : i < sgs.length) :
    (cycle_recreate_one env wf subnets sgs i vpcId).2 ≠
      some (.error .indexError) := by
  obtain ⟨sub, hsub⟩ : ∃ x, subnets[i]? = some x :=
    ⟨_, List.getElem?_eq_getElem hs⟩
  obtain ⟨sg, hsg⟩ : ∃ x, sgs[i]? = some x :=
    ⟨_, List.getElem?_eq_getElem hg⟩
  cases hc : env.awsCreateReply vpcId sub sg with
  | error e =>
    have : e ≠ .indexError := by
      intro hh
      exact hA vpcId sub sg (by rw [hc, hh])
    simp [cycle_recreate_one, hsub, hsg, hc, this]
  | ok vpce =>
    cases hr : env.createEndpointReply vpce with
    | success body =>
      have hwait := wait_endpoint_available_no_indexErr env vpce wf 0
      rcases hw : wait_endpoint_available env vpce wf 0 with ⟨tr, r⟩
      rw [hw] at hwait
      simpa [cycle_recreate_one, hsub, hsg, hc, create_private_endpoint, hr, hw]
        using hwait
    | httpError st =>
      simp [cycle_recreate_one, hsub, hsg, hc, create_private_endpoint, hr]
    | netError =>
      simp [cycle_recreate_one, hsub, hsg, hc, create_private_endpoint, hr]

/-- When both configured lists cover every index the recreation phase will
touch, the phase cannot raise an `IndexError`. -/
theorem cycle_recreate_phase_no_indexErr (env : CyclerEnv) (wf : Nat)
    (subnets sgs : List String)
    (hA : ∀ v s g, env.awsCreateReply v s g ≠ .error .indexError) :
    ∀ (vpcs : List String) (i : Nat), i + vpcs.length ≤ subnets.length →
    i + vpcs.length ≤ sgs.length →
    (cycle_recreate_phase env wf subnets sgs i vpcs).2 ≠
      some (.error .indexError) := by
  intro vpcs
  induction vpcs with
  | nil => intro i _ _; simp [cycle_recreate_phase]
  | cons v rest ih =>
    intro i hls hlg
    have hone := cycle_recreate_one_no_indexErr env wf subnets sgs i v hA
      (by simp at hls; omega) (by simp at hlg; omega)
    rcases h1 : cycle_recreate_one env wf subnets sgs i v with ⟨tr, r⟩
    rw [h1] at hone
    rcases r with _ | (e | a)
    · simp [cycle_recreate_phase, candThen, h1]
    · simpa [cycle_recreate_phase, candThen, h1] using hone
    · have hrest := ih (i + 1) (by simp at hls; omega) (by simp at hlg; omega)
      rcases h2 : cycle_recreate_phase env wf subnets sgs (i + 1) rest
        with ⟨tr2, r2⟩
      rw [h2] at hrest
      simpa [cycle_recreate_phase, candThen, h1, h2] using hrest

/-- In the steady environment a recreation step with in-range indices
completes successfully whenever the wait loop has any fuel. -/
theorem steadyEnv_recreate_one_ok (wf : Nat) (hwf : 1 ≤ wf)
    (subnets sgs : List String) (i : Nat) (vpcId sub sg : String)
    (hsub : subnets[i]? = some sub) (hsg : sgs[i]? = some sg) :
    (cycle_recreate_one steadyEnv wf subnets sgs i vpcId).2 = some (.ok ()) := by
  cases wf with
  | zero => omega
  | succ m =>
    simp [cycle_recreate_one, hsub, hsg, steadyEnv, create_private_endpoint,
      wait_endpoint_available, get_endpoint, jsonGet]

/-- In the steady environment, a too-short subnet or security-group list
makes the recreation phase raise an `IndexError`. -/
theorem steadyEnv_recreate_phase_indexErr (wf : Nat) (hwf : 1 ≤ wf)
    (subnets sgs : List String) :
    ∀ (vpcs : List String) (i : Nat), i ≤ subnets.length → i ≤ sgs.length →
    (subnets.length < i + vpcs.length ∨ sgs.length < i + vpcs.length) →
    (cycle_recreate_phase steadyEnv wf subnets sgs i vpcs).2 =
      some (.error .indexError) := by
  intro vpcs
  induction vpcs with
  | nil =>
    intro i h1 h2 h3
    simp at h3
    omega
  | cons v rest ih =>
    intro i h1 h2 h3
    by_cases hs : i < subnets.length
    · by_cases hg : i < sgs.length
      · obtain ⟨sub, hsub⟩ : ∃ x, subnets[i]? = some x :=
          ⟨_, List.getElem?_eq_getElem hs⟩
        obtain ⟨sg, hsg⟩ : ∃ x, sgs[i]? = some x :=
          ⟨_, List.getElem?_eq_getElem hg⟩
        have hok := steadyEnv_recreate_one_ok wf hwf subnets sgs i v sub sg hsub hsg
        rcases h4 : cycle_recreate_one steadyEnv wf subnets sgs i v with ⟨tr, r⟩
        rw [h4] at hok
        have hrest := ih (i + 1) (by omega) (by omega) (by simp at h3 ⊢; omega)
        rcases h5 : cycle_recreate_phase steadyEnv wf subnets sgs (i + 1) rest
          with ⟨tr2, r2⟩
        rw [h5] at hrest
        have hr : r = some (.ok ()) := hok
        have hr2 : r2 = some (.error .indexError) := hrest
        subst hr
        subst hr2
        simp [cycle_recreate_phase, candThen, h4, h5]
      · have hnone : sgs[i]? = none := List.getElem?_eq_none (by omega)
        obtain ⟨sub, hsub⟩ : ∃ x, subnets[i]? = some x :=
          ⟨_, List.getElem?_eq_getElem hs⟩
        simp [cycle_recreate_phase, candThen, cycle_recreate_one, hsub, hnone]
    · have hnone : subnets[i]? = none := List.getElem?_eq_none (by omega)
      simp [cycle_recreate_phase, candThen, cycle_recreate_one, hnone]

/-- A recreation step with in-range indices always starts by calling the AWS
create with the subnet and security group at the step's own index. -/
theorem cycle_recreate_one_head (env : CyclerEnv) (wf : Nat)
    (subnets sgs : List String) (i : Nat) (vpcId sub sg : String)
    (hsub : subnets[i]? = some sub) (hsg : sgs[i]? = some sg) :
    (cycle_recreate_one env wf subnets sgs i vpcId).1.head? =
      some (CEv.createVpcEndpointCall vpcId sub sg) := by
  cases hc : env.awsCreateReply vpcId sub sg with
  | error e => simp [cycle_recreate_one, hsub, hsg, hc]
  | ok vpce =>
    cases hr : env.createEndpointReply vpce with
    | success body =>
      rcases hw : wait_endpoint_available env vpce wf 0 with ⟨tr, r⟩
      simp [cycle_recreate_one, hsub, hsg, hc, create_private_endpoint, hr, hw]
    | httpError st =>
      simp [cycle_recreate_one, hsub, hsg, hc, create_private_endpoint, hr]
    | netError =>
      simp [cycle_recreate_one, hsub, hsg, hc, create_private_endpoint, hr]

/-- C10: during recreation the cycler pairs each VPC identifier with the
subnet and security-group identifiers at the same list index (the AWS create
call receives exactly those), and the recreation pass is free of
out-of-range access precisely when the subnet and security-group lists are
at least as long as the VPC list: with long-enough lists no `IndexError` can
arise (for any environment whose AWS create reply is not itself an
`IndexError`), and with a too-short list the phase raises `IndexError` even
in an otherwise perfectly behaving environment. -/
theorem c10_recreate_index_safety :
    (∀ (env : CyclerEnv) (wf : Nat) (subnets sgs : List String) (i : Nat)
       (vpcId sub sg : String),
       subnets[i]? = some sub → sgs[i]? = some sg →
       (cycle_recreate_one env wf subnets sgs i vpcId).1.head? =
         some (CEv.createVpcEndpointCall vpcId sub sg))
    ∧ (∀ (env : CyclerEnv) (wf : Nat) (subnets sgs vpcs : List String),
        (∀ v s g, env.awsCreateReply v s g ≠ .error .indexError) →
        vpcs.length ≤ subnets.length → vpcs.length ≤ sgs.length →
        (cycle_recreate_phase env wf subnets sgs 0 vpcs).2 ≠
          some (.error .indexError))
    ∧ (∀ (wf : Nat) (subnets sgs vpcs : List String), 1 ≤ wf →
        (subnets.length < vpcs.length ∨ sgs.length < vpcs.length) →
        (cycle_recreate_phase steadyEnv wf subnets sgs 0 vpcs).2 =
          some (.error .indexError)) := by
  refine ⟨cycle_recreate_one_head, ?_, ?_⟩
  · intro env wf subnets sgs vpcs hA hls hlg
    exact cycle_recreate_phase_no_indexErr env wf subnets sgs hA vpcs 0
      (by omega) (by omega)
  · intro wf subnets sgs vpcs hwf hshort
    exact steadyEnv_recreate_phase_indexErr wf hwf subnets sgs vpcs 0
      (by omega) (by omega) (by omega)

/-- Witness for C10: pairing at index 0, a safe one-element run, and an
`IndexError` when the subnet and security-group lists are empty. -/
theorem c10_recreate_index_safety_witness :
    (cycle_recreate_one steadyEnv 1 ["s1"] ["g1"] 0 "vpc1").1.head? =
      some (CEv.createVpcEndpointCall "vpc1" "s1" "g1")
    ∧ (cycle_recreate_phase steadyEnv 1 ["s1"] ["g1"] 0 ["vpc1"]).2 ≠
        some (.error .indexError)
    ∧ (cycle_recreate_phase steadyEnv 1 [] [] 0 ["vpc1"]).2 =
        some (.error .indexError) :=
  ⟨c10_recreate_index_safety.1 steadyEnv 1 ["s1"] ["g1"] 0 "vpc1" "s1" "g1"
      rfl rfl,
   c10_recreate_index_safety.2.1 steadyEnv 1 ["s1"] ["g1"] ["vpc1"]
      (fun v s g => by simp [steadyEnv]) (by decide) (by decide),
   c10_recreate_index_safety.2.2 1 [] [] ["vpc1"] (by decide)
      (Or.inl (by decide))⟩

end Claims
